import Mathlib

/-
Verification development for statusInfo (statusInfo-v7-udev.c + config.h).

C strings are modelled as `List Char` (the characters before the NUL
terminator).  C `long` / `int` values are modelled as `Int`; C integer
division (which truncates toward zero) is `Int.tdiv`.  External I/O
(sysfs reads, strftime, getifaddrs/ioctl, the netlink transport, udev
device records, ALSA, the output sinks) is supplied through explicit
environment values; everything the program computes from those values is
translated from the source.  C code paths that are undefined behaviour
(NULL dereference, division by zero) are modelled as `Option.none`.
-/

abbrev CStr := List Char

namespace StatusInfo

/-! ### config.h -/

/-- config.h line 3: time between status updates (ms). -/
def STATUS_TIMEOUT : Int := 10000

/-- config.h line 4: time to display notifications for (ms). -/
def NOTIFY_TIMEOUT : Int := 2000

/-- config.h line 5: maximum allowed status characters for the info line. -/
def MX_STATUS_CHARS : Nat := 192

/-- config.h line 6: maximum allowed characters in any status element
(including separator and NUL termination character). -/
def MX_ELEMENT_CHARS : Nat := 32

/-- config.h line 7: `MX_STATUS_CHARS/MX_ELEMENT_CHARS` = 6. -/
def MX_NUMBER_ELEMENTS : Nat := MX_STATUS_CHARS / MX_ELEMENT_CHARS

/-- config.h line 35: separator character between elements. -/
def si_separator : Char := ' '

/-- config.h line 17. -/
def BATTERY_NAME : CStr := "BAT1".data

/-- config.h line 18. -/
def ADAPTOR_NAME : CStr := "AC".data

/-! ### C library primitives used by the program -/

/-- `snprintf(buf, n, ...)` keeps at most `n-1` characters of the formatted
string (plus the NUL terminator, which is implicit in this model). -/
def snprintfN (n : Nat) (s : CStr) : CStr := s.take (n - 1)

/-- `%li` rendering of a `long`. -/
def longToChars (n : Int) : CStr :=
  if n < 0 then '-' :: Nat.toDigits 10 n.natAbs else Nat.toDigits 10 n.natAbs

/-- Digit accumulator for `atol`. -/
def atolNum : List Char → Nat → Nat
  | [], acc => acc
  | c :: cs, acc => if c.isDigit then atolNum cs (acc * 10 + (c.toNat - 48)) else acc

/-- C `atol`: skip leading whitespace, optional sign, then leading digits
(0 when no digits).  Only ever applied to NUL-terminated strings; the
NULL-pointer case is handled at each call site. -/
def atol (s : CStr) : Int :=
  let t := s.dropWhile (fun c => c = ' ' ∨ c = '\t' ∨ c = '\n' ∨ c = '\r')
  match t with
  | '-' :: rest => -(atolNum rest 0 : Int)
  | '+' :: rest => (atolNum rest 0 : Int)
  | _ => (atolNum t 0 : Int)

/-- glibc renders a NULL pointer passed to `%s` as `(null)`. -/
def cstrOrNull (s : Option CStr) : CStr := s.getD "(null)".data

/-! ### Periodic status (getTime, getSysInfo, getTmpInfo, getStatusInfo,
statusInfo-v7-udev.c lines 343-419).

`getSysInfo` opens a sysfs path and scans one `long`; it yields `-1` when
the file cannot be opened or scanned.  The value it returns is therefore an
environment input here.  `getTime` fills a buffer of `MX_ELEMENT_CHARS`
from `strftime` (or a fixed error message) and forces
`buf[MX_ELEMENT_CHARS-1]='\0'`; the text produced by `strftime`/`snprintf`
is the environment input `raw`. -/

/-- getTime (lines 343-357): whatever strftime/snprintf produced, the
result is cut to `MX_ELEMENT_CHARS - 1` characters. -/
def getTime (raw : CStr) : CStr := raw.take (MX_ELEMENT_CHARS - 1)

/-- getTmpInfo (lines 372-380), applied to the value `getSysInfo` read from
the thermal path: millidegrees are divided by 1000 unless the read failed. -/
def getTmpInfo (tmp : Int) : Int :=
  if tmp ≠ -1 then Int.tdiv tmp 1000 else -1

/-- Environment of one `getStatusInfo` call: the sysfs reads, the clock
text, the nl80211 family id resolved at startup, and the text that
`getNetwork` (lines 248-299, a walk over live `getifaddrs`/ioctl/netlink
state) would deposit in `net` when it is called. -/
structure StatusEnv where
  batCapacity : Int
  batPowerRaw : Int
  thermal : Option Int
  timeRaw : CStr
  nlId : Int
  netInfo : CStr

/-- The `tmp` element of getStatusInfo (lines 403-404): present whenever a
thermal path was resolved at startup, even when the read failed (-1). -/
def tmpFragment (thermal : Option Int) : CStr :=
  match thermal with
  | some t => snprintfN MX_ELEMENT_CHARS
      ("tmp:".data ++ longToChars (getTmpInfo t) ++ ("C".data ++ [si_separator]))
  | none => []

/-- The `pwr` element of getStatusInfo (lines 406-407). -/
def pwrFragment (powerNow : Int) : CStr :=
  if powerNow > 0 then
    snprintfN MX_ELEMENT_CHARS ("pwr:".data ++ longToChars powerNow ++ ("W".data ++ [si_separator]))
  else []

/-- The `bat` element of getStatusInfo (lines 409-414). -/
def batFragment (batCapacityNow : Int) : CStr :=
  if batCapacityNow > 15 then
    snprintfN MX_ELEMENT_CHARS
      ("bat:".data ++ longToChars batCapacityNow ++ ("%".data ++ [si_separator]))
  else if batCapacityNow ≠ -1 then
    snprintfN MX_ELEMENT_CHARS
      ("[!]bat:".data ++ longToChars batCapacityNow ++ ("%".data ++ [si_separator]))
  else []

/-- getStatusInfo (lines 382-419): `net` is filled by getNetwork only when
`nlData->id >= 0`; the five elements are concatenated by
`snprintf(sBuf, MX_STATUS_CHARS, "%s%s%s%s%s", net, tmp, pwr, bat, tml)`. -/
def getStatusInfo (e : StatusEnv) : CStr :=
  let net := if e.nlId ≥ 0 then e.netInfo else []
  snprintfN MX_STATUS_CHARS
    (net ++ tmpFragment e.thermal ++ pwrFragment (Int.tdiv e.batPowerRaw 1000000) ++
      batFragment e.batCapacity ++ getTime e.timeRaw)

/-! ### udev device records and the handlers of config.h -/

/-- A udev device record as seen through the libudev getters used by the
program.  `subsystem`/`action` may be NULL (`none`); `sysattr` models
`udev_device_get_sysattr_value`. -/
structure UdevDevice where
  subsystem : Option CStr
  action : Option CStr
  sysname : CStr
  sysattr : CStr → Option CStr

/-- Result of one handler call: `none` models C undefined behaviour (NULL
dereference or division by zero); otherwise the returned `int` together
with the fragment written into the caller's slot (`none` = slot untouched). -/
abbrev UdevHandlerResult := Option (Int × Option CStr)

abbrev UdevHandler := UdevDevice → UdevHandlerResult

/-- backlightStatus (config.h lines 53-60).  `atol` on a NULL attribute and
division by `atol("...")=0` are undefined behaviour. -/
def backlightStatus (dev : UdevDevice) : UdevHandlerResult :=
  match dev.sysattr "actual_brightness".data, dev.sysattr "max_brightness".data with
  | some a, some m =>
      if atol m = 0 then none
      else some (0, some (snprintfN MX_ELEMENT_CHARS
        ("LCD: ".data ++ longToChars (Int.tdiv (100 * atol a) (atol m)) ++ ("%".data ++ [si_separator]))))
  | _, _ => none

/-- The formatted rfkill fragment (config.h line 79). -/
def rfFrag (ty index : Option CStr) (rfStatus : Int) : CStr :=
  snprintfN MX_ELEMENT_CHARS
    (cstrOrNull ty ++ " [rfkill index:".data ++ cstrOrNull index ++ "]: ".data ++
      (if rfStatus = 0 then "Off".data else "On".data) ++ [si_separator])

/-- rfKillStatus (config.h lines 62-82).  `soft[0]` is dereferenced whenever
`soft` or `hard` is non-NULL, and `hard[0]` only when `soft[0]=='0'`
(short-circuit of `&&`); a NULL dereference on those paths is undefined. -/
def rfKillStatus (dev : UdevDevice) : UdevHandlerResult :=
  let index := dev.sysattr "index".data
  let ty := dev.sysattr "type".data
  let soft := dev.sysattr "soft".data
  let hard := dev.sysattr "hard".data
  if soft.isSome ∨ hard.isSome then
    match soft with
    | none => none
    | some s =>
      if s.headD (Char.ofNat 0) = '0' then
        match hard with
        | none => none
        | some h =>
          some (0, some (rfFrag ty index (if h.headD (Char.ofNat 0) = '0' then 1 else 0)))
      else
        some (0, some (rfFrag ty index 0))
  else
    some (-1, none)

/-- powerStatus (config.h lines 84-98): the configured battery deliberately
contributes an empty fragment; the adaptor reports its `online` attribute
(NULL dereference if absent); other power_supply devices fall back to a
generic `subsystem: sysname: action` fragment. -/
def powerStatus (dev : UdevDevice) : UdevHandlerResult :=
  if dev.sysname = BATTERY_NAME then
    some (0, some [])
  else if dev.sysname = ADAPTOR_NAME then
    match dev.sysattr "online".data with
    | none => none
    | some online =>
      some (0, some (snprintfN MX_ELEMENT_CHARS
        (cstrOrNull dev.subsystem ++ ": ".data ++ dev.sysname ++ ": ".data ++
          (if online.headD (Char.ofNat 0) = '0' then "Unplugged".data else "Plugged".data) ++
          [si_separator])))
  else
    some (0, some (snprintfN MX_ELEMENT_CHARS
      (cstrOrNull dev.subsystem ++ ": ".data ++ dev.sysname ++ ": ".data ++
        cstrOrNull dev.action ++ [si_separator])))

/-- udevActions (config.h lines 102-107). -/
def udevActions : List (CStr × UdevHandler) :=
  [("backlight".data, backlightStatus),
   ("rfkill".data, rfKillStatus),
   ("power_supply".data, powerStatus)]

/-! ### udevStatus (statusInfo-v7-udev.c lines 579-605) -/

/-- The dispatch loop of udevStatus (lines 590-594): entry `i` of the table
may write slot `i`; the handler of the last matching entry determines
`ret`.  The result is the final `ret` together with the list of slot
writes `(index, fragment)` the loop performed, in order.
(`LENGTH(udevActions) = 3 ≤ MX_NUMBER_ELEMENTS = 6`, so the loop's
`i<MX_NUMBER_ELEMENTS` bound never cuts the table short.)
The slot write performed by one handler call is `writeRec`: slot `i` if
the handler wrote its buffer, nothing otherwise. -/
def writeRec (i : Nat) : Option CStr → List (Nat × CStr)
  | some frag => [(i, frag)]
  | none => []

def udevDispatch (dev : UdevDevice) (subsys : CStr) :
    Nat → Int → List (CStr × UdevHandler) → Option (Int × List (Nat × CStr))
  | _, ret, [] => some (ret, [])
  | i, ret, (name, f) :: rest =>
    if name = subsys then
      match f dev with
      | none => none
      | some (r, w) =>
        match udevDispatch dev subsys (i + 1) r rest with
        | none => none
        | some p => some (p.1, writeRec i w ++ p.2)
    else udevDispatch dev subsys (i + 1) ret rest

/-- Apply recorded slot writes to the `udevDisplayInfo` array. -/
def applyWrites (slots : List CStr) : List (Nat × CStr) → List CStr
  | [] => slots
  | (i, f) :: ws => applyWrites (slots.set i f) ws

/-- The fallback fragment (line 597): `"%s: %s: %s%c"` with the local
`separator=' '`, written into slot `MX_NUMBER_ELEMENTS-1`. -/
def fallbackFrag (subsys sysname act : CStr) : CStr :=
  snprintfN MX_ELEMENT_CHARS (subsys ++ ": ".data ++ sysname ++ ": ".data ++ act ++ [' '])

/-- What one udevStatus call does to the slots before composing. -/
inductive UdevOutcome where
  | earlyExit
  | done (writes : List (Nat × CStr))
deriving DecidableEq

/-- Lines 586-597 of udevStatus: NULL subsystem returns -1 before anything
is written or composed; the dispatch loop runs only for a `"change"`
action (`strcoll` on equal byte strings behaves as equality); `ret==-1`
afterwards adds the fallback write to the overflow slot.  A NULL action
reaches `strcoll("change", NULL)`, which is undefined behaviour. -/
def udevEventCore (dev : UdevDevice) : Option UdevOutcome :=
  match dev.subsystem with
  | none => some .earlyExit
  | some subsys =>
    match dev.action with
    | none => none
    | some act =>
      match (if act = "change".data then udevDispatch dev subsys 0 (-1) udevActions
             else some ((-1 : Int), ([] : List (Nat × CStr)))) with
      | none => none
      | some (ret, ws) =>
        some (.done (if ret = -1 then
          ws ++ [(MX_NUMBER_ELEMENTS - 1, fallbackFrag subsys dev.sysname act)] else ws))

/-- The compose loop of udevStatus (lines 599-603): `j` starts at
`MX_STATUS_CHARS`; while `j > MX_ELEMENT_CHARS`, `strncat` appends at most
`MX_ELEMENT_CHARS` characters of the next slot and `j` drops by the slot's
length. -/
def udevComposeAux : Int → CStr → List CStr → CStr
  | _, acc, [] => acc
  | j, acc, f :: fs =>
    if j > (MX_ELEMENT_CHARS : Int) then
      udevComposeAux (j - f.length) (acc ++ f.take MX_ELEMENT_CHARS) fs
    else acc

/-- Composition of the slot array onto `sBuf` (lines 599-603). -/
def udevCompose (sBuf : CStr) (slots : List CStr) : CStr :=
  udevComposeAux (MX_STATUS_CHARS : Int) sBuf slots

/-- udevStatus (lines 579-605): updates the slot array and appends the
composition of all slots to `sBuf`.  `none` models the undefined paths. -/
def udevStatus (sBuf : CStr) (slots : List CStr) (dev : UdevDevice) :
    Option (List CStr × CStr) :=
  match udevEventCore dev with
  | none => none
  | some .earlyExit => some (slots, sBuf)
  | some (.done ws) =>
    let slots2 := applyWrites slots ws
    some (slots2, udevCompose sBuf slots2)

/-! ### The netlink wifi query (statusInfo-v7-udev.c lines 85-131, 178-197)

The transport is modelled as a stream of receive batches: one
`nl_recvmsgs` call dispatches the netlink messages of one batch through
the registered callbacks.  A message is either a station-statistics
notification (dispatched to `getWifiStats_nl_cb`), the end-of-dump
notification (dispatched to `finish_handler`), or an ACK (dispatched to
`ack_handler`, which returns `NL_STOP` and so ends the batch). -/

/-- One incoming netlink message, as far as the callbacks inspect it:
`valid hasStaInfo parseOk signalAttr` carries whether
`NL80211_ATTR_STA_INFO` is present, whether `nla_parse_nested` succeeds,
and the `NL80211_STA_INFO_SIGNAL` byte when present. -/
inductive NlMsg where
  | valid (hasStaInfo : Bool) (parseOk : Bool) (signalAttr : Option Nat)
  | finish
  | ack
deriving DecidableEq

/-- `(int8_t)nla_get_u8(...)`: one byte reinterpreted as signed. -/
def int8OfNat (v : Nat) : Int :=
  if v % 256 < 128 then ((v % 256 : Nat) : Int) else ((v % 256 : Nat) : Int) - 256

/-- getWifiStats_nl_cb (lines 97-131) acting on `wStats->signal`: missing
`STA_INFO` or a failed nested parse returns `NL_SKIP` without recording;
otherwise the signal byte is recorded as signed, or 0 when the nested
signal attribute is absent. -/
def getWifiStats_nl_cb (sig : Int) (hasStaInfo parseOk : Bool) (attr : Option Nat) : Int :=
  if !hasStaInfo then sig
  else if !parseOk then sig
  else
    match attr with
    | some v => int8OfNat v
    | none => 0

/-- One `nl_recvmsgs` call on the state `(wlanStatsResult, signal)`:
dispatch the batch in order; `finish_handler` (lines 85-89) sets the
completion flag to 0 and skips on; `ack_handler` (lines 91-94) returns
`NL_STOP`, dropping the rest of the batch. -/
def nl_recvmsgs : (Int × Int) → List NlMsg → (Int × Int)
  | st, [] => st
  | (flag, sig), m :: ms =>
    match m with
    | .ack => (flag, sig)
    | .finish => nl_recvmsgs (0, sig) ms
    | .valid h p a => nl_recvmsgs (flag, getWifiStats_nl_cb sig h p a) ms

/-- The receive-dispatch loop of getWifiStatus (lines 192-193):
`while (wlanStatsResult > 0) nl_recvmsgs(...)`.  Returns the final state
and the part of the stream the loop never consumed. -/
def recvLoop : (Int × Int) → List (List NlMsg) → ((Int × Int) × List (List NlMsg))
  | st, [] => (st, [])
  | st, b :: bs => if st.1 > 0 then recvLoop (nl_recvmsgs st b) bs else (st, b :: bs)

/-- getWifiStatus (lines 178-197) on state `(wlanStatsResult, signal)`:
a failed `nlmsg_alloc` returns -2 leaving the state alone; otherwise the
flag is set to 1, the dump request is sent, and the loop runs until the
flag is cleared.  (`wStats->ifindex` is `unsigned`, so the `< 0` guard at
line 179 can never fire.)  Returns the C return value, the final state and
the unconsumed stream. -/
def getWifiStatus (allocOk : Bool) (st : Int × Int) (stream : List (List NlMsg)) :
    Int × ((Int × Int) × List (List NlMsg)) :=
  if allocOk then (0, recvLoop (1, st.2) stream)
  else (-2, (st, stream))

/-! ### The reactor loop of main (statusInfo-v7-udev.c lines 787-853) -/

/-- Readiness flags of one successful poll: `anyErr` is
`POLLERR|POLLNVAL` on any of the three descriptors (line 794); the others
are `POLLIN` on the udev monitor, the signalfd and the mixer. -/
structure PollReady where
  anyErr : Bool
  udevIn : Bool
  sigIn : Bool
  mixIn : Bool

/-- Result of one `poll` call (line 791). -/
inductive PollResult where
  | fail
  | timeout
  | ready (r : PollReady)

/-- Everything one loop iteration obtains from the outside world. -/
structure IterEnv where
  poll : PollResult
  udevRecv : Option UdevDevice
  mixRet : Int
  volumeLevel : CStr
  emitOk : CStr → Bool
  status : StatusEnv

/-- The mutable state the loop carries from one iteration to the next:
the poll timeout and the `udevDisplayInfo` slot array. -/
structure ReactorState where
  timeout : Int
  slots : List CStr

/-- Outcome of one iteration: `stop` breaks out of the `while`, `next`
continues with the new state; either way `emits` lists the status lines
handed to `sbOut`, in order. -/
inductive StepResult where
  | stop (emits : List CStr)
  | next (s : ReactorState) (emits : List CStr)

/-- Lines 801-809: drain the udev monitor when it is ready.  A NULL
device from `udev_monitor_receive_device` is only logged.  Returns the
event `sBuf` so far and the updated slots (`none` = undefined behaviour
inside udevStatus). -/
def udevPhase (slots : List CStr) (udevIn : Bool) (recv : Option UdevDevice) :
    Option (CStr × List CStr) :=
  if udevIn then
    match recv with
    | some dev =>
      match udevStatus [] slots dev with
      | none => none
      | some (slots1, sBuf1) => some (sBuf1, slots1)
    | none => some ([], slots)
  else some ([], slots)

/-- Lines 819-835: drain the mixer when it is ready.  A negative
`snd_mixer_handle_events` is only logged; on success `sBuf` is replaced by
the `volumeLevel` text the callback left behind. -/
def mixPhase (sBuf : CStr) (mixIn : Bool) (mixRet : Int) (vol : CStr) : CStr :=
  if mixIn then (if mixRet < 0 then sBuf else snprintfN MX_STATUS_CHARS vol) else sBuf

/-- Lines 844-852: the periodic refresh executed when poll timed out or
the event line came out empty: clear all slots, recompute the full status,
emit it, and set the timeout to STATUS_TIMEOUT (break on a failed emit). -/
def periodicPhase (e : IterEnv) : StepResult :=
  if e.emitOk (getStatusInfo e.status) then
    .next ⟨STATUS_TIMEOUT, List.replicate MX_NUMBER_ELEMENTS []⟩ [getStatusInfo e.status]
  else .stop [getStatusInfo e.status]

/-- One iteration of the `while(!exit_request)` loop (lines 787-853).
`none` models an iteration whose behaviour is undefined. -/
def loopIter (s : ReactorState) (e : IterEnv) : Option StepResult :=
  match e.poll with
  | .fail => some (.stop [])
  | .timeout => some (periodicPhase e)
  | .ready r =>
    if r.anyErr then some (.stop [])
    else
      match udevPhase s.slots r.udevIn e.udevRecv with
      | none => none
      | some (sBuf1, slots1) =>
        if r.sigIn then some (.stop [])
        else
          if mixPhase sBuf1 r.mixIn e.mixRet e.volumeLevel = [] then some (periodicPhase e)
          else if e.emitOk (mixPhase sBuf1 r.mixIn e.mixRet e.volumeLevel) then
            some (.next ⟨NOTIFY_TIMEOUT, slots1⟩ [mixPhase sBuf1 r.mixIn e.mixRet e.volumeLevel])
          else some (.stop [mixPhase sBuf1 r.mixIn e.mixRet e.volumeLevel])

/-- The state at the top of the loop: `int timeout=1000;` (line 633) and
the still-uninitialised `udevDisplayInfo` array (its indeterminate startup
contents are the parameter). -/
def initState (initialSlots : List CStr) : ReactorState :=
  ⟨1000, initialSlots⟩

/-- The timeout values passed to successive `poll` calls of a run. -/
def pollTimeouts (s : ReactorState) : List IterEnv → List Int
  | [] => []
  | e :: es =>
    s.timeout :: (match loopIter s e with
      | some (.next s' _) => pollTimeouts s' es
      | _ => [])

/-- All status lines handed to `sbOut` during a run. -/
def runEmits (s : ReactorState) : List IterEnv → List CStr
  | [] => []
  | e :: es =>
    match loopIter s e with
    | some (.next s' ems) => ems ++ runEmits s' es
    | some (.stop ems) => ems
    | none => []

/-- The state an iteration hands to the next one (unchanged if the loop
stopped). -/
def nextState (s : ReactorState) (e : IterEnv) : ReactorState :=
  match loopIter s e with
  | some (.next s' _) => s'
  | _ => s

/-! ### Concrete instances used to evaluate the model -/

/-- The slot array right after a periodic refresh cleared it. -/
def emptySlots : List CStr := List.replicate MX_NUMBER_ELEMENTS []

/-- A synthetic backlight change event with `actual_brightness=50`,
`max_brightness=100`. -/
def devBack : UdevDevice :=
  { subsystem := some "backlight".data
    action := some "change".data
    sysname := "intel_backlight".data
    sysattr := fun n =>
      if n = "actual_brightness".data then some "50".data
      else if n = "max_brightness".data then some "100".data
      else none }

/-- A change event for an unregistered subsystem `"foo"`. -/
def devFoo : UdevDevice :=
  { subsystem := some "foo".data
    action := some "change".data
    sysname := "foo0".data
    sysattr := fun _ => none }

/-- A change event for the configured battery (`BATTERY_NAME = "BAT1"`). -/
def devBat : UdevDevice :=
  { subsystem := some "power_supply".data
    action := some "change".data
    sysname := "BAT1".data
    sysattr := fun _ => none }

/-- A sample periodic-status environment. -/
def cStatus : StatusEnv :=
  ⟨50, 12000000, some 45123, "01-01-2026 12:00".data, 0, "w3:-60dBm ".data⟩

/-- An iteration whose poll timed out. -/
def envTO : IterEnv :=
  { poll := .timeout, udevRecv := none, mixRet := 0, volumeLevel := [],
    emitOk := fun _ => true, status := cStatus }

/-- An iteration whose poll failed (`ret < 0`). -/
def envPollFail : IterEnv :=
  { poll := .fail, udevRecv := none, mixRet := 0, volumeLevel := [],
    emitOk := fun _ => true, status := cStatus }

/-- An iteration in which the udev monitor fired with the backlight event. -/
def envBack : IterEnv :=
  { poll := .ready ⟨false, true, false, false⟩, udevRecv := some devBack,
    mixRet := 0, volumeLevel := [], emitOk := fun _ => true, status := cStatus }

/-- An iteration in which the udev monitor fired with the `"foo"` event. -/
def envFoo : IterEnv :=
  { poll := .ready ⟨false, true, false, false⟩, udevRecv := some devFoo,
    mixRet := 0, volumeLevel := [], emitOk := fun _ => true, status := cStatus }

/-- An iteration in which the udev monitor fired with the battery event. -/
def envBat : IterEnv :=
  { poll := .ready ⟨false, true, false, false⟩, udevRecv := some devBat,
    mixRet := 0, volumeLevel := [], emitOk := fun _ => true, status := cStatus }

/-- An iteration in which both drains fail: the udev receive returns NULL
and the mixer event handler returns a negative code. -/
def envDrainFail : IterEnv :=
  { poll := .ready ⟨false, true, false, true⟩, udevRecv := none,
    mixRet := -5, volumeLevel := [], emitOk := fun _ => true, status := cStatus }

/-- An iteration with the backlight event whose `sbOut` fails. -/
def envEmitFail : IterEnv :=
  { poll := .ready ⟨false, true, false, false⟩, udevRecv := some devBack,
    mixRet := 0, volumeLevel := [], emitOk := fun _ => false, status := cStatus }

/-- A periodic environment whose thermal path was resolved but whose
sysfs temperature read failed (`getSysInfo` returned -1); battery
capacity 10, power read failed, nl80211 disabled. -/
def c6env : StatusEnv := ⟨10, -1, some (-1), "01-01-2026 12:00".data, -1, []⟩

/-- A periodic environment in which nl80211 resolution failed
(`nlId = -1`) while an ethernet link-speed text would be available. -/
def c10env : StatusEnv :=
  ⟨50, 12000000, some 45123, "01-01-2026 12:00".data, -1, "e2:1000M ".data⟩

/-- A sample slot array for evaluating the composer. -/
def c1slots : List CStr :=
  ["LCD: 50% ".data, [], "wlan [rfkill index:0]: On ".data, [], [], "foo: foo0: change ".data]

/-! ### Helper lemmas -/

/-- Invariant of the compose loop: as long as at most 6 fragments of at
most 31 characters each remain and `j` still carries the remaining budget,
every remaining fragment is appended whole. -/
theorem udevComposeAux_eq : ∀ (fs : List CStr) (acc : CStr) (j : Int),
    fs.length ≤ 6 → (∀ s ∈ fs, s.length ≤ 31) →
    (192 : Int) - 31 * (6 - (fs.length : Int)) ≤ j →
    udevComposeAux j acc fs = acc ++ fs.flatten := by
  intro fs
  induction fs with
  | nil => intro acc j _ _ _; simp [udevComposeAux]
  | cons f fs ih =>
    intro acc j hlen hb hj
    have hf : f.length ≤ 31 := hb f (List.mem_cons_self f fs)
    have hlen' : fs.length ≤ 5 := by
      simp only [List.length_cons] at hlen; omega
    have hfsc : ((f :: fs).length : Int) = (fs.length : Int) + 1 := by
      simp only [List.length_cons]; push_cast; ring
    have h32 : (MX_ELEMENT_CHARS : Int) < j := by
      rw [hfsc] at hj
      have h5 : (fs.length : Int) ≤ 5 := by exact_mod_cast hlen'
      unfold MX_ELEMENT_CHARS
      omega
    have htake : f.take MX_ELEMENT_CHARS = f :=
      List.take_of_length_le (le_trans hf (by norm_num [MX_ELEMENT_CHARS]))
    rw [udevComposeAux, if_pos h32, htake,
      ih (acc ++ f) (j - f.length) (le_trans hlen' (by norm_num)) (fun s hs => hb s (List.mem_cons_of_mem f hs))
        (by
          rw [hfsc] at hj
          have hfc : (f.length : Int) ≤ 31 := by exact_mod_cast hf
          omega)]
    simp [List.flatten]

/-! ### Claim C1 -/

/-- Claim C1: for every slot array of `MX_NUMBER_ELEMENTS` fragments, each
shorter than `MX_ELEMENT_CHARS`, the composed status line is exactly the
in-order concatenation of all the fragments (so every emitted fragment is
whole and the truncation branch that would drop trailing fragments can
never be reached: the total length is always at most
`MX_STATUS_CHARS - 1`, within the NUL-terminated capacity).  The periodic
composer of getStatusInfo (5 such fragments through
`snprintf(..., MX_STATUS_CHARS, "%s%s%s%s%s", ...)`) likewise returns the
plain concatenation. -/
theorem compose_concatenates_whole_fragments (slots : List CStr)
    (h6 : slots.length = MX_NUMBER_ELEMENTS)
    (hb : ∀ s ∈ slots, s.length < MX_ELEMENT_CHARS) :
    udevCompose [] slots = slots.flatten ∧
    slots.flatten.length ≤ MX_STATUS_CHARS - 1 ∧
    ∀ ps : List CStr, ps.length = 5 → (∀ s ∈ ps, s.length < MX_ELEMENT_CHARS) →
      snprintfN MX_STATUS_CHARS ps.flatten = ps.flatten := by
  have h6' : slots.length = 6 := by simpa [MX_NUMBER_ELEMENTS, MX_STATUS_CHARS, MX_ELEMENT_CHARS] using h6
  have hb' : ∀ s ∈ slots, s.length ≤ 31 := fun s hs => by
    have := hb s hs; simp [MX_ELEMENT_CHARS] at this; omega
  refine ⟨?_, ?_, ?_⟩
  · have := udevComposeAux_eq slots [] (MX_STATUS_CHARS : Int) (le_of_eq h6') hb'
      (by rw [h6']; norm_num [MX_STATUS_CHARS])
    simpa [udevCompose] using this
  · have hsum : (slots.map List.length).sum ≤ (slots.map List.length).length * 31 := by
      have := List.sum_le_card_nsmul (slots.map List.length) 31
        (fun x hx => by
          obtain ⟨s, hs, rfl⟩ := List.mem_map.mp hx
          exact hb' s hs)
      simpa using this
    rw [List.length_flatten]
    simp only [List.length_map, h6'] at hsum
    simp [MX_STATUS_CHARS]
    omega
  · intro ps hp5 hpb
    have hpb' : ∀ s ∈ ps, s.length ≤ 31 := fun s hs => by
      have := hpb s hs; simp [MX_ELEMENT_CHARS] at this; omega
    have hsum : (ps.map List.length).sum ≤ (ps.map List.length).length * 31 := by
      have := List.sum_le_card_nsmul (ps.map List.length) 31
        (fun x hx => by
          obtain ⟨s, hs, rfl⟩ := List.mem_map.mp hx
          exact hpb' s hs)
      simpa using this
    have hlen : ps.flatten.length ≤ 155 := by
      rw [List.length_flatten]
      simp only [List.length_map, hp5] at hsum
      omega
    exact List.take_of_length_le (le_trans hlen (by norm_num [MX_STATUS_CHARS]))

/-- Witness for C1 at a concrete slot array. -/
theorem compose_concatenates_whole_fragments_witness :
    udevCompose [] c1slots = c1slots.flatten ∧
    c1slots.flatten.length ≤ MX_STATUS_CHARS - 1 ∧
    ∀ ps : List CStr, ps.length = 5 → (∀ s ∈ ps, s.length < MX_ELEMENT_CHARS) →
      snprintfN MX_STATUS_CHARS ps.flatten = ps.flatten :=
  compose_concatenates_whole_fragments c1slots (by decide) (by decide)

/-- A formatted element starting from a non-empty string is non-empty. -/
theorem snprintfN_len_pos (n : Nat) (s : CStr) (hs : 0 < s.length) (hn : 1 ≤ n - 1) :
    snprintfN n s ≠ [] := by
  apply List.ne_nil_of_length_pos
  rw [snprintfN, List.length_take]
  omega

/-! ### Claim C6 -/

/-- Counterexample to C6: a temperature read of the sentinel -1 does NOT
suppress the temperature fragment — getStatusInfo renders `tmp:-1C ` into
the status line (the fragment is absent only when no thermal path was
resolved at startup). -/
theorem temperature_sentinel_not_suppressed_counterexample :
    getStatusInfo c6env = "tmp:-1C [!]bat:10% 01-01-2026 12:00".data ∧
    tmpFragment (some (-1)) = "tmp:-1C ".data ∧
    "tmp:-1C ".data ≠ ([] : CStr) := by
  refine ⟨by decide, by decide, by decide⟩

/-- Claim C6 (amended): battery capacity at or below the low-charge
threshold 15 (and not the sentinel -1) yields a fragment carrying the
`[!]` low-charge marker; capacity above 15 yields an unmarked fragment;
capacity -1 suppresses the battery fragment entirely; the power-draw
fragment appears exactly when the computed power is strictly positive.
A temperature read of -1, however, does not suppress the temperature
fragment (it renders `tmp:-1C`); the temperature fragment is absent only
when no thermal path was resolved at startup. -/
theorem periodic_fragment_policies_amended :
    (∀ c : Int, c ≤ 15 → c ≠ -1 → (batFragment c).take 3 = "[!]".data ∧ batFragment c ≠ []) ∧
    (∀ c : Int, c > 15 → (batFragment c).take 3 ≠ "[!]".data ∧ batFragment c ≠ []) ∧
    batFragment (-1) = [] ∧
    (∀ p : Int, pwrFragment p ≠ [] ↔ p > 0) ∧
    (∀ t : Int, tmpFragment (some t) ≠ []) ∧
    tmpFragment none = [] := by
  refine ⟨?_, ?_, by decide, ?_, ?_, by decide⟩
  · intro c hc hne
    have h15 : ¬ c > 15 := by omega
    unfold batFragment
    rw [if_neg h15, if_pos hne]
    constructor
    · rw [snprintfN, List.take_take]
      have hmin : min 3 (MX_ELEMENT_CHARS - 1) = 3 := by norm_num [MX_ELEMENT_CHARS]
      rw [hmin]
      rfl
    · apply snprintfN_len_pos
      · simp
      · norm_num [MX_ELEMENT_CHARS]
  · intro c hc
    unfold batFragment
    rw [if_pos hc]
    constructor
    · rw [snprintfN, List.take_take]
      have hmin : min 3 (MX_ELEMENT_CHARS - 1) = 3 := by norm_num [MX_ELEMENT_CHARS]
      rw [hmin]
      intro h
      have h0 := congrArg (fun l => l.headD ' ') h
      simp at h0
    · apply snprintfN_len_pos
      · simp
      · norm_num [MX_ELEMENT_CHARS]
  · intro p
    constructor
    · intro h
      by_contra hp
      unfold pwrFragment at h
      rw [if_neg hp] at h
      exact h rfl
    · intro hp
      unfold pwrFragment
      rw [if_pos hp]
      apply snprintfN_len_pos
      · simp
      · norm_num [MX_ELEMENT_CHARS]
  · intro t
    unfold tmpFragment
    apply snprintfN_len_pos
    · simp
    · norm_num [MX_ELEMENT_CHARS]

/-- Witness for the amended C6 at the concrete capacities 10 and 50,
power 12 and a failed temperature read. -/
theorem periodic_fragment_policies_amended_witness :
    ((batFragment 10).take 3 = "[!]".data ∧ batFragment 10 ≠ []) ∧
    ((batFragment 50).take 3 ≠ "[!]".data ∧ batFragment 50 ≠ []) ∧
    (pwrFragment 12 ≠ [] ↔ (12 : Int) > 0) ∧
    tmpFragment (some (-1)) ≠ [] :=
  ⟨periodic_fragment_policies_amended.1 10 (by decide) (by decide),
   periodic_fragment_policies_amended.2.1 50 (by decide),
   periodic_fragment_policies_amended.2.2.2.1 12,
   periodic_fragment_policies_amended.2.2.2.2.1 (-1)⟩

/-- The receive loop consumes nothing once the completion flag is no
longer positive. -/
theorem recvLoop_exit (st : Int × Int) (bs : List (List NlMsg)) (h : st.1 ≤ 0) :
    recvLoop st bs = (st, bs) := by
  cases bs with
  | nil => rfl
  | cons b bs =>
    unfold recvLoop
    rw [if_neg (by omega)]

/-! ### Claim C5 -/

/-- Counterexample to C5: a query whose only station notification lacks
the `NL80211_ATTR_STA_INFO` container carries no signal-strength
attribute, yet the query does not return the neutral value 0 — the
callback returns `NL_SKIP` without recording anything, so the signal
field keeps whatever value it held before the query (here 5). -/
theorem wifi_stale_signal_counterexample :
    getWifiStatus true (1, 5) [[NlMsg.valid false true none, NlMsg.finish]] =
      (0, ((0, 5), [])) ∧ (5 : Int) ≠ 0 :=
  ⟨by decide, by decide⟩

/-- Claim C5 (amended): the receive-dispatch loop exits as soon as the
completion flag is no longer positive, and once the batch containing the
"finished" notification has been dispatched (the finish callback clears
the flag to 0) no further batch is consumed; `getWifiStatus` runs that
loop from flag 1 (returning -2 and leaving everything untouched when
message allocation fails).  The valid-data callback records the
signal-strength byte reinterpreted as signed when present, records the
neutral 0 when the station-info container is present without a signal
attribute, and records nothing — leaving the previous signal value in
place — when the container is missing or its nested parse fails; the ack
callback never changes the state (it stops the current batch). -/
theorem wifi_query_amended :
    (∀ (st : Int × Int) (bs : List (List NlMsg)), st.1 ≤ 0 → recvLoop st bs = (st, bs)) ∧
    (∀ (sig0 : Int) (b : List NlMsg) (bs : List (List NlMsg)),
      (nl_recvmsgs (1, sig0) b).1 = 0 →
      recvLoop (1, sig0) (b :: bs) = (nl_recvmsgs (1, sig0) b, bs)) ∧
    (∀ (st : Int × Int) (stream : List (List NlMsg)),
      getWifiStatus true st stream = (0, recvLoop (1, st.2) stream) ∧
      getWifiStatus false st stream = (-2, (st, stream))) ∧
    (∀ sig v, getWifiStats_nl_cb sig true true (some v) = int8OfNat v) ∧
    (∀ sig, getWifiStats_nl_cb sig true true none = 0) ∧
    (∀ sig p a, getWifiStats_nl_cb sig false p a = sig) ∧
    (∀ sig a, getWifiStats_nl_cb sig true false a = sig) ∧
    (∀ (st : Int × Int) (ms : List NlMsg), nl_recvmsgs st (NlMsg.ack :: ms) = st) := by
  refine ⟨recvLoop_exit, ?_, ?_, ?_, ?_, ?_, ?_, ?_⟩
  · intro sig0 b bs h
    unfold recvLoop
    rw [if_pos (by norm_num)]
    exact recvLoop_exit _ bs (le_of_eq h)
  · intro st stream
    exact ⟨rfl, rfl⟩
  · intro sig v; rfl
  · intro sig; rfl
  · intro sig p a; rfl
  · intro sig a; rfl
  · intro st ms; rfl

/-- Witness for the amended C5: the loop returns immediately on a cleared
flag, and consumes exactly up to the batch whose dispatch observes the
finish notification. -/
theorem wifi_query_amended_witness :
    recvLoop ((0 : Int), 7) [[NlMsg.finish]] = (((0 : Int), 7), [[NlMsg.finish]]) ∧
    recvLoop (1, 7) [[NlMsg.valid true true (some 200), NlMsg.finish], [NlMsg.ack]] =
      (nl_recvmsgs (1, 7) [NlMsg.valid true true (some 200), NlMsg.finish], [[NlMsg.ack]]) :=
  ⟨wifi_query_amended.1 ((0 : Int), 7) [[NlMsg.finish]] (by decide),
   wifi_query_amended.2.1 7 [NlMsg.valid true true (some 200), NlMsg.finish] [[NlMsg.ack]] (by decide)⟩

/-! ### Claim C8 -/

/-- Claim C8: a change event for subsystem `"backlight"` with
`actual_brightness=50`, `max_brightness=100` writes the fragment
`"LCD: 50% "` into the backlight slot (table index 0); a change event for
the unregistered subsystem `"foo"` writes a fallback fragment containing
`"foo"` and the action string into the overflow slot
(index `MX_NUMBER_ELEMENTS - 1`). -/
theorem udev_dispatch_examples :
    udevStatus [] emptySlots devBack =
      some (["LCD: 50% ".data, [], [], [], [], []], "LCD: 50% ".data) ∧
    udevStatus [] emptySlots devFoo =
      some ([[], [], [], [], [], "foo: foo0: change ".data], "foo: foo0: change ".data) ∧
    "foo".data <:+: "foo: foo0: change ".data ∧
    "change".data <:+: "foo: foo0: change ".data :=
  ⟨by decide, by decide,
   ⟨[], ": foo0: change ".data, by decide⟩,
   ⟨"foo: foo0: ".data, [' '], by decide⟩⟩

/-! ### Claim C10 -/

/-- Claim C10: when nl80211 family resolution failed at startup
(`nlData.id < 0`), getNetwork is never called, so every periodic status
line is composed with an empty network element — the ethernet/bridge
link-speed text is suppressed together with the wireless text, whatever
getNetwork would have produced. -/
theorem nl80211_failure_suppresses_network (e : StatusEnv) (h : e.nlId < 0) :
    getStatusInfo e = snprintfN MX_STATUS_CHARS
      (tmpFragment e.thermal ++ pwrFragment (Int.tdiv e.batPowerRaw 1000000) ++
        batFragment e.batCapacity ++ getTime e.timeRaw) ∧
    getStatusInfo e = getStatusInfo { e with netInfo := [] } := by
  have hneg : ¬ e.nlId ≥ 0 := by omega
  constructor
  · unfold getStatusInfo
    rw [if_neg hneg]
    simp
  · unfold getStatusInfo
    simp [if_neg hneg]

/-- Witness for C10 at a concrete environment with `nlId = -1` and an
available ethernet link-speed text. -/
theorem nl80211_failure_suppresses_network_witness :
    getStatusInfo c10env = snprintfN MX_STATUS_CHARS
      (tmpFragment c10env.thermal ++ pwrFragment (Int.tdiv c10env.batPowerRaw 1000000) ++
        batFragment c10env.batCapacity ++ getTime c10env.timeRaw) ∧
    getStatusInfo c10env = getStatusInfo { c10env with netInfo := [] } :=
  nl80211_failure_suppresses_network c10env (by decide)

/-! ### Reactor helper lemmas -/

/-- A continuing periodic refresh always produces the freshly cleared
slot array, the STATUS_TIMEOUT, and the full periodic line. -/
theorem periodicPhase_next (e : IterEnv) (s' : ReactorState) (ems : List CStr)
    (h : periodicPhase e = .next s' ems) :
    s' = ⟨STATUS_TIMEOUT, List.replicate MX_NUMBER_ELEMENTS []⟩ ∧
    ems = [getStatusInfo e.status] := by
  unfold periodicPhase at h
  split at h
  · cases h; exact ⟨rfl, rfl⟩
  · cases h

/-- Whenever the loop continues, the new timeout is one of the two
configured values. -/
theorem loopIter_next_timeout {s : ReactorState} {e : IterEnv} {s' : ReactorState}
    {ems : List CStr} (h : loopIter s e = some (.next s' ems)) :
    s'.timeout = STATUS_TIMEOUT ∨ s'.timeout = NOTIFY_TIMEOUT := by
  unfold loopIter at h
  split at h
  · simp at h
  · simp only [Option.some.injEq] at h
    left
    rw [(periodicPhase_next _ _ _ h).1]
  · split at h
    · simp at h
    · split at h
      · simp at h
      · split at h
        · simp at h
        · split at h
          · simp only [Option.some.injEq] at h
            left
            rw [(periodicPhase_next _ _ _ h).1]
          · split at h
            · simp only [Option.some.injEq] at h
              cases h
              right
              rfl
            · simp at h

/-- All poll timeouts of a run started from a state whose timeout is one
of the two configured values stay within the two configured values. -/
theorem pollTimeouts_mem : ∀ (es : List IterEnv) (s : ReactorState),
    (s.timeout = STATUS_TIMEOUT ∨ s.timeout = NOTIFY_TIMEOUT) →
    ∀ t ∈ pollTimeouts s es, t = STATUS_TIMEOUT ∨ t = NOTIFY_TIMEOUT := by
  intro es
  induction es with
  | nil => intro s hs t ht; simp [pollTimeouts] at ht
  | cons e es ih =>
    intro s hs t ht
    simp only [pollTimeouts] at ht
    rcases List.mem_cons.mp ht with h1 | h2
    · subst h1; exact hs
    · cases hl : loopIter s e with
      | none => simp [hl] at h2
      | some sr =>
        cases sr with
        | stop ems => simp [hl] at h2
        | next s' ems => exact ih s' (loopIter_next_timeout hl) t (by simpa [hl] using h2)

/-! ### Claim C2 -/

/-- Claim C2: on an iteration where poll reports readiness (no error
revents, no termination signal) and draining the ready sources composes a
non-empty status line, that line is emitted and the next poll uses the
TRANSIENT timeout NOTIFY_TIMEOUT; on an iteration where poll times out,
the full periodic status (clock, network, temperature, power, battery) is
recomputed, emitted, and the next poll uses the PERIODIC timeout
STATUS_TIMEOUT. -/
theorem reactor_timeout_transitions (s : ReactorState) (e : IterEnv) :
    (∀ (r : PollReady) (sb1 : CStr) (slots1 : List CStr),
      e.poll = .ready r → r.anyErr = false → r.sigIn = false →
      udevPhase s.slots r.udevIn e.udevRecv = some (sb1, slots1) →
      mixPhase sb1 r.mixIn e.mixRet e.volumeLevel ≠ [] →
      e.emitOk (mixPhase sb1 r.mixIn e.mixRet e.volumeLevel) = true →
      loopIter s e = some (.next ⟨NOTIFY_TIMEOUT, slots1⟩
        [mixPhase sb1 r.mixIn e.mixRet e.volumeLevel])) ∧
    (e.poll = .timeout →
      e.emitOk (getStatusInfo e.status) = true →
      loopIter s e = some (.next ⟨STATUS_TIMEOUT, List.replicate MX_NUMBER_ELEMENTS []⟩
        [getStatusInfo e.status])) := by
  constructor
  · intro r sb1 slots1 hp he hs hu hl hemit
    unfold loopIter
    rw [hp]
    simp [he, hs, hu, hl, hemit]
  · intro hp hemit
    unfold loopIter
    rw [hp]
    simp [periodicPhase, hemit]

/-- Witness for C2: the backlight event emits `LCD: 50% ` and switches to
NOTIFY_TIMEOUT; a timed-out poll emits the periodic line and switches to
STATUS_TIMEOUT. -/
theorem reactor_timeout_transitions_witness :
    loopIter (initState emptySlots) envBack =
      some (.next ⟨NOTIFY_TIMEOUT, ["LCD: 50% ".data, [], [], [], [], []]⟩
        ["LCD: 50% ".data]) ∧
    loopIter (initState emptySlots) envTO =
      some (.next ⟨STATUS_TIMEOUT, List.replicate MX_NUMBER_ELEMENTS []⟩
        [getStatusInfo cStatus]) :=
  ⟨(reactor_timeout_transitions (initState emptySlots) envBack).1
      ⟨false, true, false, false⟩ ("LCD: 50% ".data)
      (["LCD: 50% ".data, [], [], [], [], []]) rfl rfl rfl (by decide) (by decide) rfl,
   (reactor_timeout_transitions (initState emptySlots) envTO).2 rfl rfl⟩

/-! ### Claim C3 -/

/-- Counterexample to C3: the very first poll call uses the hard-coded
initial value `int timeout=1000;` (line 633), which is neither
STATUS_TIMEOUT nor NOTIFY_TIMEOUT. -/
theorem first_poll_timeout_counterexample :
    pollTimeouts (initState emptySlots) [envPollFail] = [1000] ∧
    (1000 : Int) ≠ STATUS_TIMEOUT ∧ (1000 : Int) ≠ NOTIFY_TIMEOUT :=
  ⟨by decide, by decide, by decide⟩

/-- Claim C3 (amended): the very first poll call uses the hard-coded
initial timeout of 1000 ms; every subsequent poll call uses exactly one of
the two configured values, STATUS_TIMEOUT (10000 ms) or NOTIFY_TIMEOUT
(2000 ms) — no other value is ever passed to poll after the first call. -/
theorem poll_timeout_values_amended (slots0 : List CStr) (es : List IterEnv) :
    (es ≠ [] → (pollTimeouts (initState slots0) es).head? = some 1000) ∧
    ∀ t ∈ (pollTimeouts (initState slots0) es).tail,
      t = STATUS_TIMEOUT ∨ t = NOTIFY_TIMEOUT := by
  constructor
  · intro hne
    cases es with
    | nil => exact absurd rfl hne
    | cons e es => simp [pollTimeouts, initState]
  · intro t ht
    cases es with
    | nil => simp [pollTimeouts] at ht
    | cons e es =>
      simp only [pollTimeouts, List.tail_cons] at ht
      cases hl : loopIter (initState slots0) e with
      | none => simp [hl] at ht
      | some sr =>
        cases sr with
        | stop ems => simp [hl] at ht
        | next s' ems =>
          exact pollTimeouts_mem es s' (loopIter_next_timeout hl) t (by simpa [hl] using ht)

/-- Witness for the amended C3 on a two-iteration run of timed-out polls:
the first poll uses 1000 ms and the second uses one of the configured
values. -/
theorem poll_timeout_values_amended_witness :
    (pollTimeouts (initState emptySlots) [envTO, envTO]).head? = some 1000 ∧
    ((10000 : Int) = STATUS_TIMEOUT ∨ (10000 : Int) = NOTIFY_TIMEOUT) :=
  ⟨(poll_timeout_values_amended emptySlots [envTO, envTO]).1 (List.cons_ne_nil _ _),
   (poll_timeout_values_amended emptySlots [envTO, envTO]).2 10000 (by decide)⟩

/-! ### Slot-write helper lemmas -/

/-- `MX_NUMBER_ELEMENTS` computes to 6. -/
theorem mx_elems_eq : MX_NUMBER_ELEMENTS = 6 := rfl

/-- Slots not named by any recorded write are untouched. -/
theorem applyWrites_not_mem : ∀ (ws : List (Nat × CStr)) (slots : List CStr) (j : Nat),
    j ∉ ws.map Prod.fst → (applyWrites slots ws)[j]? = slots[j]? := by
  intro ws
  induction ws with
  | nil => intro slots j _; rfl
  | cons w ws ih =>
    intro slots j hj
    obtain ⟨i, f⟩ := w
    simp only [List.map_cons, List.mem_cons] at hj
    push_neg at hj
    rw [applyWrites, ih _ j hj.2]
    exact List.getElem?_set_ne (Ne.symm hj.1)

/-- The dispatch loop writes strictly increasing slot indices, all within
the range of the table entries it walked. -/
theorem udevDispatch_writes (dev : UdevDevice) (subsys : CStr) :
    ∀ (table : List (CStr × UdevHandler)) (i : Nat) (ret r : Int) (ws : List (Nat × CStr)),
    udevDispatch dev subsys i ret table = some (r, ws) →
    (ws.map Prod.fst).Pairwise (· < ·) ∧ ∀ p ∈ ws, i ≤ p.1 ∧ p.1 < i + table.length := by
  intro table
  induction table with
  | nil =>
    intro i ret r ws h
    simp only [udevDispatch, Option.some.injEq, Prod.mk.injEq] at h
    rw [← h.2]
    simp
  | cons entry rest ih =>
    intro i ret r ws h
    obtain ⟨name, f⟩ := entry
    simp only [udevDispatch] at h
    split at h
    · split at h
      · exact Option.noConfusion h
      · rename_i r1 w hf
        split at h
        · exact Option.noConfusion h
        · rename_i p hd
          obtain ⟨r2, ws2⟩ := p
          simp only [Option.some.injEq, Prod.mk.injEq] at h
          obtain ⟨hr, hws⟩ := h
          obtain ⟨hp2, hb2⟩ := ih (i + 1) r1 r2 ws2 hd
          subst hws
          cases w with
          | none =>
            simp only [writeRec, List.nil_append]
            refine ⟨hp2, fun q hq => ?_⟩
            have := hb2 q hq
            simp only [List.length_cons]
            omega
          | some frag =>
            constructor
            · simp only [writeRec, List.singleton_append, List.map_cons, List.pairwise_cons]
              refine ⟨fun b hb => ?_, hp2⟩
              obtain ⟨q, hq, rfl⟩ := List.mem_map.mp hb
              have := (hb2 q hq).1
              omega
            · intro q hq
              simp only [writeRec, List.singleton_append, List.length_cons] at hq ⊢
              rcases List.mem_cons.mp hq with rfl | hq2
              · simp
              · have := hb2 q hq2
                omega
    · obtain ⟨hp2, hb2⟩ := ih (i + 1) ret r ws h
      refine ⟨hp2, fun q hq => ?_⟩
      have := hb2 q hq
      simp only [List.length_cons]
      omega

/-- One udevStatus dispatch performs pairwise-distinct slot writes, all
inside the slot array. -/
theorem udevEventCore_writes (dev : UdevDevice) (ws : List (Nat × CStr))
    (h : udevEventCore dev = some (.done ws)) :
    (ws.map Prod.fst).Nodup ∧ ∀ p ∈ ws, p.1 < MX_NUMBER_ELEMENTS := by
  unfold udevEventCore at h
  split at h
  · simp at h
  · rename_i subsys hsub
    split at h
    · exact Option.noConfusion h
    · rename_i act hact
      split at h
      · exact Option.noConfusion h
      · rename_i ret ws1 heq
        simp only [Option.some.injEq, UdevOutcome.done.injEq] at h
        subst h
        by_cases hch : act = "change".data
        · rw [if_pos hch] at heq
          obtain ⟨hp1, hb1⟩ := udevDispatch_writes dev subsys udevActions 0 (-1) ret ws1 heq
          have hb1' : ∀ p ∈ ws1, p.1 < 3 := by
            intro q hq
            have := (hb1 q hq).2
            simpa [udevActions] using this
          by_cases hr : ret = -1
          · rw [if_pos hr]
            constructor
            · rw [List.map_append]
              apply List.Nodup.append
              · exact List.Pairwise.imp (fun hab => Nat.ne_of_lt hab) hp1
              · simp
              · intro a ha hb
                obtain ⟨q, hq, rfl⟩ := List.mem_map.mp ha
                have h3 := hb1' q hq
                simp only [List.map_cons, List.map_nil, List.mem_singleton] at hb
                rw [hb, mx_elems_eq] at h3
                omega
            · intro q hq
              rcases List.mem_append.mp hq with h1 | h2
              · have := hb1' q h1
                rw [mx_elems_eq]
                omega
              · simp only [List.mem_singleton] at h2
                rw [h2, mx_elems_eq]
                simp
          · rw [if_neg hr]
            refine ⟨List.Pairwise.imp (fun hab => Nat.ne_of_lt hab) hp1, fun q hq => ?_⟩
            have := hb1' q hq
            rw [mx_elems_eq]
            omega
        · rw [if_neg hch] at heq
          simp only [Option.some.injEq, Prod.mk.injEq] at heq
          obtain ⟨h1, h2⟩ := heq
          rw [← h1, if_pos rfl, ← h2, List.nil_append]
          simp [mx_elems_eq]

/-! ### Claim C4 -/

/-- Counterexample to C4: the FragmentSlots are NOT cleared at the start
of an event-dispatch cycle.  After the backlight event of the first
iteration the slot array still holds `LCD: 50% ` when the second
iteration dispatches the unrelated `foo` event, and the composed line of
that second cycle therefore still contains the stale backlight fragment. -/
theorem slots_not_cleared_on_event_counterexample :
    (nextState (initState emptySlots) envBack).slots ≠ emptySlots ∧
    runEmits (initState emptySlots) [envBack, envFoo] =
      ["LCD: 50% ".data, "LCD: 50% foo: foo0: change ".data] :=
  ⟨by decide, by decide⟩

/-- Claim C4 (amended): the FragmentSlots are cleared to empty strings at
the start of every periodic-refresh composition (every iteration that
falls through to the periodic branch), not at the start of event-dispatch
cycles; across consecutive event dispatches the slots keep their previous
contents.  Within one dispatch cycle each slot is written at most once
before the composer reads the array — the recorded write indices are
pairwise distinct and in range — and slots not named by a write are
unchanged. -/
theorem slot_lifecycle_amended :
    (∀ (s : ReactorState) (e : IterEnv), e.poll = .timeout →
      loopIter s e = some (periodicPhase e)) ∧
    (∀ (e : IterEnv) (s' : ReactorState) (ems : List CStr),
      periodicPhase e = .next s' ems → s'.slots = List.replicate MX_NUMBER_ELEMENTS []) ∧
    (∀ (dev : UdevDevice) (ws : List (Nat × CStr)), udevEventCore dev = some (.done ws) →
      (ws.map Prod.fst).Nodup ∧ ∀ p ∈ ws, p.1 < MX_NUMBER_ELEMENTS) ∧
    (∀ (slots : List CStr) (ws : List (Nat × CStr)) (j : Nat),
      j ∉ ws.map Prod.fst → (applyWrites slots ws)[j]? = slots[j]?) := by
  refine ⟨?_, ?_, udevEventCore_writes, fun slots ws j => applyWrites_not_mem ws slots j⟩
  · intro s e hp
    unfold loopIter
    rw [hp]
  · intro e s' ems h
    rw [(periodicPhase_next e s' ems h).1]

/-- Witness for the amended C4: a timed-out iteration performs the
periodic refresh; the `foo` dispatch records the single in-range write to
the overflow slot; an unwritten slot is untouched. -/
theorem slot_lifecycle_amended_witness :
    loopIter (initState emptySlots) envTO = some (periodicPhase envTO) ∧
    (([((5 : Nat), "foo: foo0: change ".data)].map Prod.fst).Nodup ∧
      ∀ p ∈ [((5 : Nat), "foo: foo0: change ".data)], p.1 < MX_NUMBER_ELEMENTS) ∧
    (applyWrites emptySlots [(0, "LCD: 50% ".data)])[3]? = emptySlots[3]? :=
  ⟨slot_lifecycle_amended.1 (initState emptySlots) envTO rfl,
   slot_lifecycle_amended.2.2.1 devFoo _ (by decide),
   slot_lifecycle_amended.2.2.2 emptySlots [(0, "LCD: 50% ".data)] 3 (by decide)⟩

/-! ### Claim C7 -/

/-- Claim C7: per-source drain failures never terminate the loop — a NULL
return from the udev receive together with a negative mixer handler
return leaves the event line empty and the iteration proceeds to the
periodic refresh; a hard error from poll itself terminates the loop, and
so does a failed emit (on the event path and on the periodic path). -/
theorem error_policy_fatal_vs_drain (s : ReactorState) (e : IterEnv) :
    (e.poll = .fail → loopIter s e = some (.stop [])) ∧
    (∀ r : PollReady, e.poll = .ready r → r.anyErr = false → r.sigIn = false →
      r.udevIn = true → e.udevRecv = none → r.mixIn = true → e.mixRet < 0 →
      e.emitOk (getStatusInfo e.status) = true →
      loopIter s e = some (.next ⟨STATUS_TIMEOUT, List.replicate MX_NUMBER_ELEMENTS []⟩
        [getStatusInfo e.status])) ∧
    (∀ (r : PollReady) (sb1 : CStr) (slots1 : List CStr),
      e.poll = .ready r → r.anyErr = false → r.sigIn = false →
      udevPhase s.slots r.udevIn e.udevRecv = some (sb1, slots1) →
      mixPhase sb1 r.mixIn e.mixRet e.volumeLevel ≠ [] →
      e.emitOk (mixPhase sb1 r.mixIn e.mixRet e.volumeLevel) = false →
      loopIter s e = some (.stop [mixPhase sb1 r.mixIn e.mixRet e.volumeLevel])) ∧
    (e.poll = .timeout → e.emitOk (getStatusInfo e.status) = false →
      loopIter s e = some (.stop [getStatusInfo e.status])) := by
  refine ⟨?_, ?_, ?_, ?_⟩
  · intro hp
    unfold loopIter
    rw [hp]
  · intro r hp he hs hui hrecv hmi hmr hemit
    unfold loopIter
    rw [hp]
    have hu : udevPhase s.slots r.udevIn e.udevRecv = some ([], s.slots) := by
      rw [hui, hrecv]
      rfl
    have hl : mixPhase [] r.mixIn e.mixRet e.volumeLevel = [] := by
      rw [mixPhase, hmi, if_pos rfl, if_pos hmr]
    simp [he, hs, hu, hl, periodicPhase, hemit]
  · intro r sb1 slots1 hp he hs hu hl hemit
    unfold loopIter
    rw [hp]
    simp [he, hs, hu, hl, hemit]
  · intro hp hemit
    unfold loopIter
    rw [hp]
    simp [periodicPhase, hemit]

/-- Witness for C7: the double drain failure proceeds to the periodic
refresh; a failed poll stops; a failed emit stops. -/
theorem error_policy_fatal_vs_drain_witness :
    loopIter (initState emptySlots) envPollFail = some (.stop []) ∧
    loopIter (initState emptySlots) envDrainFail =
      some (.next ⟨STATUS_TIMEOUT, List.replicate MX_NUMBER_ELEMENTS []⟩
        [getStatusInfo cStatus]) ∧
    loopIter (initState emptySlots) envEmitFail = some (.stop ["LCD: 50% ".data]) :=
  ⟨(error_policy_fatal_vs_drain (initState emptySlots) envPollFail).1 rfl,
   (error_policy_fatal_vs_drain (initState emptySlots) envDrainFail).2.1
     ⟨false, true, false, true⟩ rfl rfl rfl rfl rfl rfl (by decide) rfl,
   (error_policy_fatal_vs_drain (initState emptySlots) envEmitFail).2.2.1
     ⟨false, true, false, false⟩ ("LCD: 50% ".data)
     (["LCD: 50% ".data, [], [], [], [], []]) rfl rfl rfl (by decide) (by decide) rfl⟩

/-! ### Claim C9 -/

/-- Claim C9: on an iteration where a source fires but the composed event
line is empty (for example a change event for the configured battery,
whose handler deliberately writes an empty fragment), the reactor does
not merely skip emitting: the same iteration falls through to the full
periodic refresh — clearing all FragmentSlots, emitting the recomputed
periodic status, and setting the timeout to STATUS_TIMEOUT. -/
theorem empty_event_line_falls_through (s : ReactorState) (e : IterEnv)
    (r : PollReady) (sb1 : CStr) (slots1 : List CStr)
    (hp : e.poll = .ready r) (he : r.anyErr = false) (hs : r.sigIn = false)
    (hu : udevPhase s.slots r.udevIn e.udevRecv = some (sb1, slots1))
    (hl : mixPhase sb1 r.mixIn e.mixRet e.volumeLevel = [])
    (hemit : e.emitOk (getStatusInfo e.status) = true) :
    loopIter s e = some (.next ⟨STATUS_TIMEOUT, List.replicate MX_NUMBER_ELEMENTS []⟩
      [getStatusInfo e.status]) := by
  unfold loopIter
  rw [hp]
  simp [he, hs, hu, hl, periodicPhase, hemit]

/-- Witness for C9: the battery change event composes an empty line and
the iteration performs the full periodic refresh. -/
theorem empty_event_line_falls_through_witness :
    loopIter ⟨NOTIFY_TIMEOUT, emptySlots⟩ envBat =
      some (.next ⟨STATUS_TIMEOUT, List.replicate MX_NUMBER_ELEMENTS []⟩
        [getStatusInfo cStatus]) :=
  empty_event_line_falls_through ⟨NOTIFY_TIMEOUT, emptySlots⟩ envBat
    ⟨false, true, false, false⟩ [] emptySlots rfl rfl rfl (by decide) (by decide) rfl

end StatusInfo
